import Mathlib

/-!
Verification development for the pyoscope plotting library
(PyOscopeStatic / PyOscopeRealtime in pyoscope.py).

The Python functions are shallowly embedded as executable Lean
definitions. Data series are modelled as lists; floating point plot
coordinates are modelled as rationals; fallible operations return
Except or Option.
-/

namespace PyOscope

/-- Python slice `l[-ws:]`. Note the Python gotcha: for `ws = 0` the
slice `l[-0:]` is `l[0:]`, i.e. the whole list, not the empty list. -/
def pySliceLast {α : Type} (ws : Nat) (l : List α) : List α :=
  if ws = 0 then l else l.drop (l.length - ws)

/-- The trailing `n` elements of a list (all of it when `n ≥ length`). -/
def takeLast {α : Type} (n : Nat) (l : List α) : List α :=
  l.drop (l.length - n)

/-- Embeds the data path of `PyOscopeStatic._plotyt`: the y data handed
to `ax.plot`. Source: `ws = len(y)` if `windowsize is None` else
`min(len(y), windowsize)`; `y = y[-ws:]`; `y = transform(y)` with the
identity used when `transform is None`. -/
def plotyt_data (y : List Int) (windowsize : Option Nat)
    (transform : Option (List Int → List Int)) : List Int :=
  let ws := match windowsize with
    | none => y.length
    | some w => min y.length w
  let t := transform.getD id
  t (pySliceLast ws y)

/-- Embeds the data path of `PyOscopeStatic._plotxy`: the x and y data
handed to `ax.plot`, or the length-mismatch error. Source: raises
`ValueError` when `len(x) != len(y)`; otherwise slices both to the
trailing window (window measured on `len(y)`) and applies the
transforms to the slices. -/
def plotxy_data (x y : List Int) (windowsize : Option Nat)
    (xtrans ytrans : Option (List Int → List Int)) :
    Except String (List Int × List Int) :=
  if x.length ≠ y.length then
    .error "x and y values must have same length!"
  else
    let ws := match windowsize with
      | none => y.length
      | some w => min y.length w
    let xt := xtrans.getD id
    let yt := ytrans.getD id
    .ok (xt (pySliceLast ws x), yt (pySliceLast ws y))

/-- Embeds the y-data path of `PyOscopeRealtime._update_line_slow`.
Source: `ws = len(y)` if `windowsize is None` else
`min(len(y), windowsize)`; `newy = ytrans(y)[-ws:]` — the transform is
applied to the full series and the result is sliced afterwards. -/
def update_line_slow_y (y : List Int) (windowsize : Option Nat)
    (ytrans : List Int → List Int) : List Int :=
  let ws := match windowsize with
    | none => y.length
    | some w => min y.length w
  pySliceLast ws (ytrans y)

/-- One matplotlib line's data, as seen by
`PyOscopeRealtime._get_minmax` (`line.get_xdata()` / `line.get_ydata()`). -/
structure Line where
  xdata : List ℚ
  ydata : List ℚ
deriving DecidableEq

/-- One axes cell of the grid: its current view limits, as returned by
`ax.axis()`, together with its lines (`ax.lines`). -/
structure AxesCell where
  xminax : ℚ
  xmaxax : ℚ
  yminax : ℚ
  ymaxax : ℚ
  lines : List Line
deriving DecidableEq

/-- Sequences a list of optional values; `none` when any element is
`none`. Models that Python `min`/`max` raise on an empty sequence. -/
def optList {α : Type} : List (Option α) → Option (List α)
  | [] => some []
  | none :: _ => none
  | some a :: rest => (optList rest).map (a :: ·)

/-- Union data bounds of all lines of one axes cell, mirroring the
`xmins`/`xmaxs`/`ymins`/`ymaxs` accumulation loop of
`PyOscopeRealtime.autoscale_axes` followed by the outer `min`/`max`.
`none` when the cell has no lines or some line has empty data (Python
`min([])` raises there). -/
def cellBounds (c : AxesCell) : Option (ℚ × ℚ × ℚ × ℚ) :=
  match optList (c.lines.map (fun l => l.xdata.min?)),
        optList (c.lines.map (fun l => l.xdata.max?)),
        optList (c.lines.map (fun l => l.ydata.min?)),
        optList (c.lines.map (fun l => l.ydata.max?)) with
  | some xmins, some xmaxs, some ymins, some ymaxs =>
    match xmins.min?, xmaxs.max?, ymins.min?, ymaxs.max? with
    | some xmin, some xmax, some ymin, some ymax => some (xmin, xmax, ymin, ymax)
    | _, _, _, _ => none
  | _, _, _, _ => none

/-- Embeds the per-cell body of `PyOscopeRealtime.autoscale_axes`.
Mirrors the source faithfully, including the slip at lines 640-641 of
pyoscope.py: `newymin`/`newymax` use `0.1*dx` (the x data span) rather
than the computed-but-unused `dy`. -/
def autoscale_cell (xflag yflag : Bool) (c : AxesCell) : Option AxesCell :=
  match cellBounds c with
  | none => none
  | some (xmin, xmax, ymin, ymax) =>
    let dxax := c.xmaxax - c.xminax
    let dyax := c.ymaxax - c.yminax
    let xmidax := c.xminax + dxax / 2
    let ymidax := c.yminax + dyax / 2
    let xmincond := xmin < c.xminax ∨ xmin > xmidax
    let xmaxcond := xmax > c.xmaxax ∨ xmax < xmidax
    let ymincond := ymin < c.yminax ∨ ymin > ymidax
    let ymaxcond := ymax > c.ymaxax ∨ ymax < ymidax
    if xmincond ∨ xmaxcond ∨ ymincond ∨ ymaxcond then
      let dx := xmax - xmin
      let newxmin := xmin - (1/10) * dx
      let newxmax := xmax + (1/10) * dx
      let newymin := ymin - (1/10) * dx
      let newymax := ymax + (1/10) * dx
      some { c with
        xminax := if xflag then newxmin else c.xminax
        xmaxax := if xflag then newxmax else c.xmaxax
        yminax := if yflag then newymin else c.yminax
        ymaxax := if yflag then newymax else c.ymaxax }
    else
      some c

/-- Embeds `PyOscopeRealtime.autoscale_axes` over the flattened grid:
an early return when both autoscale flags are off, otherwise the
per-cell pass over every cell. -/
def autoscale_axes (xflag yflag : Bool) (cells : List AxesCell) :
    Option (List AxesCell) :=
  if !xflag && !yflag then some cells
  else optList (cells.map (autoscale_cell xflag yflag))

/-- The plot-related state of a PyOscopeStatic object observable by
later draw/update calls: `self.mode`, the shape of `self.axes`
(`none` before any grid is built), and the line handles created so far,
recorded by their `(i, j)` position in `self.lines`. -/
structure OscState where
  mode : String
  axesShape : Option (Nat × Nat)
  lines : List (Nat × Nat)
deriving DecidableEq

/-- The error message of `PyOscopeStatic._plotxy`'s length check. -/
def lengthErr : String := "x and y values must have same length!"

/-- The inner loop of `PyOscopeStatic.plot` (non-oneD branch) for one x
series: iterates `j` over the y series, calling `_plotxy`, which raises
on a length mismatch before creating the line. Returns the handles
created, stopping at the first mismatch. -/
def plotInner (i : Nat) (x : List Int) :
    Nat → List (List Int) → List (Nat × Nat) × Except String Unit
  | _, [] => ([], .ok ())
  | j, y :: rest =>
    if x.length ≠ y.length then ([], .error lengthErr)
    else
      match plotInner i x (j + 1) rest with
      | (ls, res) => ((i, j) :: ls, res)

/-- The outer loop of `PyOscopeStatic.plot` (non-oneD branch): iterates
`i` over the x series. An exception from the inner loop propagates,
keeping the handles already created. -/
def plotOuter : Nat → List (List Int) → List (List Int) →
    List (Nat × Nat) × Except String Unit
  | _, [], _ => ([], .ok ())
  | i, x :: rest, ys =>
    match plotInner i x 0 ys with
    | (ls, .ok _) =>
      match plotOuter (i + 1) rest ys with
      | (ls2, res) => (ls ++ ls2, res)
    | (ls, .error e) => (ls, .error e)

/-- Embeds `PyOscopeStatic.plot` after identifier resolution, as a
transition on the observable state. `xs = none` is the oneD case (plots
against the index). Mirrors the source order: the axes grid is created
(`self.axes = self._create_axes(leny, lenx)`, which clears the figure)
and `self.mode = 'plot'` is set before the per-pair plotting loop runs,
so a length-mismatch exception leaves that state behind. The prior
state is discarded wholesale, as the source overwrites each field. -/
def plot (_s : OscState) (xs : Option (List (List Int)))
    (ys : List (List Int)) (splitx splity : Bool) :
    OscState × Except String Unit :=
  let lenx := match xs with
    | some l => if splitx then l.length else 1
    | none => 1
  let leny := if splity then ys.length else 1
  let base : OscState := { mode := "plot", axesShape := some (leny, lenx), lines := [] }
  match xs with
  | none =>
    ({ base with lines := (List.range ys.length).map (fun j => (0, j)) }, .ok ())
  | some l =>
    match plotOuter 0 l ys with
    | (ls, res) => ({ base with lines := ls }, res)

/-- Follows the spec's words for the grid shape: rows = number of y
identifiers if splity else 1; columns = number of x identifiers if
splitx and not oneD else 1. -/
def gridShapeSpec (numXs numYs : Nat) (splitx splity oneD : Bool) : Nat × Nat :=
  ((if splity then numYs else 1), (if splitx && !oneD then numXs else 1))

/-- Outcome of one execution of `PyOscopeRealtime.run`'s loop body
sequence: how many ticks ran, the loop's result, whether the stop flag
is set at exit, and whether `self.close()` (line 531) ran. -/
structure RunOutcome where
  ticksRun : Nat
  result : Except String Unit
  stopped : Bool
  closed : Bool

/-- Embeds `PyOscopeRealtime.run`. The input list holds the outcome
each call of `self._update()` would produce, up to the point where the
stop event is observed set (the empty list). A raising tick sets the
stop event and re-raises: the loop exits without running further ticks
and without the normal-exit `self.close()`. -/
def runThread : List (Except String Unit) → RunOutcome
  | [] => { ticksRun := 0, result := .ok (), stopped := true, closed := true }
  | .ok () :: rest =>
    let r := runThread rest
    { r with ticksRun := r.ticksRun + 1 }
  | .error e :: _ =>
    { ticksRun := 1, result := .error e, stopped := true, closed := false }

/-- The redraw strategies of `PyOscopeRealtime._update_plot`. -/
inductive UpdateStrategy where
  | slow
  | wxagg
deriving DecidableEq

/-- The `update_backend` dict of `PyOscopeRealtime._update_plot`,
keyed on the active rendering backend. -/
def update_backend : List (String × UpdateStrategy) :=
  [("macosx", .slow), ("wxagg", .wxagg)]

/-- The `update_backend[self._backend]()` lookup: a missing key raises
`KeyError`, with no default fallback. -/
def update_plot_strategy (backend : String) : Except String UpdateStrategy :=
  match update_backend.lookup backend with
  | some s => .ok s
  | none => .error ("KeyError: " ++ backend)

/-- Embeds the dispatch of one tick's `PyOscopeRealtime._update`:
`self._update_dict[self.mode]()`, where mode 'none' is a no-op
(`_pass`) and mode 'plot' runs `_update_plot`, whose first step is the
backend strategy lookup. -/
def update_tick (mode backend : String) : Except String Unit :=
  if mode = "none" then .ok ()
  else if mode = "plot" then (update_plot_strategy backend).map (fun _ => ())
  else .error ("KeyError: " ++ mode)

/-- The lifecycle state of a PyOscopeRealtime object: the constructor
flag `self.interactive`, the thread's `isAlive()` status, the
`self.stopped` event, whether the figure is still registered with
pyplot, whether the reader is open, and how many blocking `join()`
calls have been made. -/
structure EngineState where
  interactive : Bool
  alive : Bool
  stoppedFlag : Bool
  figOpen : Bool
  readerOpen : Bool
  joinCount : Nat
deriving DecidableEq

/-- Embeds `PyOscopeRealtime.close`: `plt.close(self.fig)` and
`self.reader.close()`. -/
def close (s : EngineState) : EngineState :=
  { s with figOpen := false, readerOpen := false }

/-- Embeds `PyOscopeRealtime.stop`: when interactive and the thread is
alive, set the stop event and `join()` (which blocks until the loop
observes the flag and exits, so afterwards the thread is not alive);
then `self.close()` unconditionally. -/
def stop (s : EngineState) : EngineState :=
  let s1 :=
    if s.interactive && s.alive then
      { s with stoppedFlag := true, alive := false, joinCount := s.joinCount + 1 }
    else s
  close s1

/-- Column identifiers accepted by `PyOscopeStatic.plot`: a column name
string, an integer column index, the series data itself (any other
Iterable), or a value matching none of those isinstance branches
(e.g. a bare float). -/
inductive Ident where
  | str : String → Ident
  | int : Nat → Ident
  | series : List Int → Ident
  | other : Ident

/-- `self.data[name]`: pandas raises `KeyError` for a missing column. -/
def lookupCol (df : List (String × List Int)) (name : String) :
    Except String (List Int) :=
  match df.lookup name with
  | some d => .ok d
  | none => .error ("KeyError: " ++ name)

/-- `self.data.columns[i]`: pandas raises `IndexError` out of range. -/
def colName (df : List (String × List Int)) (i : Nat) : Except String String :=
  match (df.map Prod.fst).get? i with
  | some n => .ok n
  | none => .error "IndexError"

/-- The default name given to a raw series identifier at position `j`,
`'y_{j}'.format(j=j)`. -/
def yDefaultName (j : Nat) : String := "y_" ++ toString j

/-- One iteration of the y-identifier resolution loop of
`PyOscopeStatic.plot` (lines 316-327). `cur` holds the current values
of the Python locals `newy`/`yname` from earlier iterations (none on
the first iteration). An identifier matching no isinstance branch
leaves them unassigned: referencing them then either raises
`UnboundLocalError` (first iteration) or silently reuses the previous
iteration's values. -/
def resolve_one (df : List (String × List Int)) (y : Ident) (j : Nat)
    (cur : Option (List Int × String)) : Except String (List Int × String) :=
  match y with
  | .str s => (lookupCol df s).map (fun d => (d, s))
  | .int i =>
    match colName df i with
    | .error e => .error e
    | .ok n => (lookupCol df n).map (fun d => (d, n))
  | .series d => .ok (d, yDefaultName j)
  | .other =>
    match cur with
    | some v => .ok v
    | none => .error "UnboundLocalError: local variable referenced before assignment"

/-- The full y-identifier resolution loop of `PyOscopeStatic.plot`:
builds the `newys`/`ynames` pairs in order, threading the loop locals
through `cur`. -/
def resolve_series (df : List (String × List Int)) :
    List Ident → Nat → Option (List Int × String) →
    Except String (List (List Int × String))
  | [], _, _ => .ok []
  | y :: rest, j, cur =>
    match resolve_one df y j cur with
    | .error e => .error e
    | .ok v =>
      match resolve_series df rest (j + 1) (some v) with
      | .error e => .error e
      | .ok vs => .ok (v :: vs)

/-- A concrete axes cell: one line with x data `[0, 1]` (span 1) and
y data `[0, 10]` (span 10), current limits x `[0, 1]`, y `[0, 5]`, so
the tick's rescale triggers (the y data max exceeds the y limit). -/
def cellC1 : AxesCell :=
  { xminax := 0, xmaxax := 1, yminax := 0, ymaxax := 5,
    lines := [{ xdata := [0, 1], ydata := [0, 10] }] }

/-- A concrete axes cell: one line whose y data `[4, 6]` sits strictly
inside the current y limits `[0, 10]` and around their midpoint 5 (so
the y axis's own rescale condition is false), while the x data min -5
lies below the current x limit 0 (so the x condition is true). -/
def cellC3 : AxesCell :=
  { xminax := 0, xmaxax := 10, yminax := 0, ymaxax := 10,
    lines := [{ xdata := [-5, 1], ydata := [4, 6] }] }

end PyOscope

namespace PyOscope

/-- The Python slice with the window clamped to the list's length
agrees with taking the trailing `min w (length l)` elements, for any
positive requested window `w`. -/
theorem pySliceLast_min_eq {α : Type} (w : Nat) (hw : 1 ≤ w) (l : List α) :
    pySliceLast (min l.length w) l = takeLast (min w l.length) l := by
  unfold pySliceLast takeLast
  rcases l with _ | ⟨a, l⟩
  · simp
  · have h1 : min (a :: l).length w ≠ 0 := by
      have hlen : (a :: l).length = l.length + 1 := rfl
      omega
    rw [if_neg h1, Nat.min_comm]

/-- Slicing the whole list is the identity. -/
theorem pySliceLast_length {α : Type} (l : List α) :
    pySliceLast l.length l = l := by
  unfold pySliceLast
  rcases l with _ | ⟨a, l⟩
  · simp
  · rw [if_neg (by simp), Nat.sub_self, List.drop_zero]

/-- `takeLast` commutes with `List.map`. -/
theorem takeLast_map {α β : Type} (f : α → β) (n : Nat) (l : List α) :
    takeLast n (l.map f) = (takeLast n l).map f := by
  unfold takeLast
  rw [List.length_map, List.map_drop]

/-- Claim C1: a rescale-triggering tick should give each enabled axis
limits equal to its tight data bounds expanded by 10% of that axis's
own span; for y data bounds [0, 10] that means lo ≤ -1 and hi ≥ 11.
The code fails this: on `cellC1` (x span 1, y data bounds [0, 10], a
triggering tick) it sets the y limits to [-1/10, 101/10], because
lines 640-641 of pyoscope.py expand the y bounds by `0.1*dx`, the x
data span, instead of the computed-but-unused `dy`. -/
theorem C1_y_margin_uses_x_span :
    autoscale_cell true true cellC1 =
      some { xminax := -1/10, xmaxax := 11/10, yminax := -1/10, ymaxax := 101/10,
             lines := [{ xdata := [0, 1], ydata := [0, 10] }] } ∧
    ¬((-1/10 : ℚ) ≤ -1 ∧ (11 : ℚ) ≤ 101/10) := by
  constructor
  · norm_num [autoscale_cell, cellBounds, cellC1, optList, List.min?, List.max?,
      min_def, max_def]
  · norm_num

/-- Claim C2 (counterexample): the realtime line update is claimed to
apply the transform to the windowed slice. On series [1,2,3,4,5],
window 2 and the (non-elementwise) transform `List.reverse`,
`_update_line_slow` displays [2, 1] — the transform was applied to the
full series and sliced afterwards — while the transform applied to the
trailing window gives [5, 4]. -/
theorem C2_counterexample :
    update_line_slow_y [1, 2, 3, 4, 5] (some 2) List.reverse = [2, 1] ∧
    List.reverse (takeLast (min 2 ([1, 2, 3, 4, 5] : List Int).length) [1, 2, 3, 4, 5]) = [5, 4] ∧
    ([2, 1] : List Int) ≠ [5, 4] := by
  refine ⟨by decide, by decide, by decide⟩

/-- Claim C2 (amended): the initial draw (`_plotyt`) slices the series
to the trailing `min w (length)` window and then applies the transform
to the slice; the realtime update (`_update_line_slow`) instead applies
the transform to the full series and slices afterwards. For
length-preserving elementwise transforms `List.map g` the two orders
display the same data: `g` mapped over the trailing window. -/
theorem C2_window_transform_order (g : Int → Int) (y : List Int) (w : Nat)
    (hw : 1 ≤ w) :
    plotyt_data y (some w) (some (List.map g)) = (takeLast (min w y.length) y).map g ∧
    update_line_slow_y y (some w) (List.map g) = (takeLast (min w y.length) y).map g := by
  constructor
  · show (pySliceLast (min y.length w) y).map g = _
    rw [pySliceLast_min_eq w hw y]
  · show pySliceLast (min y.length w) (y.map g) = _
    rw [show min y.length w = min (y.map g).length w by rw [List.length_map],
      pySliceLast_min_eq w hw (y.map g), List.length_map, takeLast_map]

/-- Claim C2 witness: on series [1,2,3,4,5], window 2 and the
elementwise transform multiplying by 10, both the initial draw and the
realtime update display [40, 50]. -/
theorem C2_window_transform_order_witness :
    plotyt_data [1, 2, 3, 4, 5] (some 2) (some (List.map (· * 10))) = [40, 50] ∧
    update_line_slow_y [1, 2, 3, 4, 5] (some 2) (List.map (· * 10)) = [40, 50] := by
  have h := C2_window_transform_order (· * 10) [1, 2, 3, 4, 5] 2 (by decide)
  exact ⟨by rw [h.1]; decide, by rw [h.2]; decide⟩

/-- Claim C6 (counterexample): for window size 0 the claim predicts the
trailing `min 0 (length) = 0` samples, i.e. no data; the code displays
the full series, because the Python slice `y[-0:]` is the whole list. -/
theorem C6_counterexample :
    plotyt_data [1, 2, 3] (some 0) none = [1, 2, 3] ∧
    takeLast (min 0 ([1, 2, 3] : List Int).length) [1, 2, 3] = [] ∧
    ([1, 2, 3] : List Int) ≠ [] := by
  refine ⟨by decide, by decide, by decide⟩

/-- Claim C6 (amended): a window size of None uses every sample, and so
does a window size of 0 (Python slice `y[-0:]`); a positive window size
`w` uses exactly the trailing `min w (length)` samples, in both
`_plotyt` and `_plotxy` (the latter windows both series by the y
length), with an oversized window silently using the full series. -/
theorem C6_windowing (y x : List Int) (w : Nat) (hw : 1 ≤ w)
    (hlen : x.length = y.length) :
    plotyt_data y none none = y ∧
    plotyt_data y (some 0) none = y ∧
    plotyt_data y (some w) none = takeLast (min w y.length) y ∧
    plotxy_data x y (some w) none none =
      .ok (takeLast (min w x.length) x, takeLast (min w y.length) y) := by
  refine ⟨?_, ?_, ?_, ?_⟩
  · show pySliceLast y.length y = y
    exact pySliceLast_length y
  · show pySliceLast (min y.length 0) y = y
    rw [Nat.min_zero]
    rfl
  · show pySliceLast (min y.length w) y = _
    exact pySliceLast_min_eq w hw y
  · show plotxy_data x y (some w) none none = _
    unfold plotxy_data
    rw [if_neg (by omega)]
    show Except.ok (pySliceLast (min y.length w) x, pySliceLast (min y.length w) y) = _
    rw [show min y.length w = min x.length w by rw [hlen],
      pySliceLast_min_eq w hw x]
    rw [show min x.length w = min y.length w by rw [hlen],
      pySliceLast_min_eq w hw y]

/-- Claim C6 witness: series [1,2,3] (and x series [9,8,7]) with an
oversized window 5 draw the full series, with no error and no padding. -/
theorem C6_windowing_witness :
    plotyt_data [1, 2, 3] none none = [1, 2, 3] ∧
    plotyt_data [1, 2, 3] (some 0) none = [1, 2, 3] ∧
    plotyt_data [1, 2, 3] (some 5) none =
      takeLast (min 5 ([1, 2, 3] : List Int).length) [1, 2, 3] ∧
    plotxy_data [9, 8, 7] [1, 2, 3] (some 5) none none =
      .ok (takeLast (min 5 ([9, 8, 7] : List Int).length) [9, 8, 7],
           takeLast (min 5 ([1, 2, 3] : List Int).length) [1, 2, 3]) :=
  C6_windowing [1, 2, 3] [9, 8, 7] 5 (by decide) (by decide)

/-- Claim C3 (counterexample): on `cellC3` the y axis's own condition
is false — its union data bounds are (4, 6), the current y limits are
[0, 10] with midpoint 5, and neither `4 < 0`, `4 > 5`, `6 > 10` nor
`6 < 5` holds — yet the tick changes the y limits (to [17/5, 33/5]),
because the x axis's condition triggered and the code rescales every
enabled axis on one combined condition. So an enabled axis whose own
condition does not hold need not keep its limits. -/
theorem C3_counterexample :
    cellBounds cellC3 = some (-5, 1, 4, 6) ∧
    ¬((4 : ℚ) < cellC3.yminax ∨
      (4 : ℚ) > cellC3.yminax + (cellC3.ymaxax - cellC3.yminax) / 2 ∨
      (6 : ℚ) > cellC3.ymaxax ∨
      (6 : ℚ) < cellC3.yminax + (cellC3.ymaxax - cellC3.yminax) / 2) ∧
    autoscale_cell true true cellC3 =
      some { cellC3 with xminax := -28/5, xmaxax := 8/5,
                         yminax := 17/5, ymaxax := 33/5 } ∧
    (17/5 : ℚ) ≠ cellC3.yminax ∧ (33/5 : ℚ) ≠ cellC3.ymaxax := by
  refine ⟨?_, ?_, ?_, ?_, ?_⟩
  · norm_num [cellBounds, cellC3, optList, List.min?, List.max?, min_def, max_def]
  · norm_num [cellC3]
  · norm_num [autoscale_cell, cellBounds, cellC3, optList, List.min?, List.max?,
      min_def, max_def]
  · norm_num [cellC3]
  · norm_num [cellC3]

/-- Claim C3 (amended): each axis's condition is as stated — its union
data min below the current limit min or above the midpoint, or its
union data max above the current limit max or below the midpoint — but
the four conditions are OR-ed into one cell-level trigger: when none
holds the cell keeps all its limits, and when any holds every enabled
axis is rescaled together (the y axis with the x-span margin). -/
theorem C3_rescale_trigger (xflag yflag : Bool) (c : AxesCell)
    (xmin xmax ymin ymax : ℚ)
    (hb : cellBounds c = some (xmin, xmax, ymin, ymax)) :
    (¬((xmin < c.xminax ∨ xmin > c.xminax + (c.xmaxax - c.xminax) / 2) ∨
       (xmax > c.xmaxax ∨ xmax < c.xminax + (c.xmaxax - c.xminax) / 2) ∨
       (ymin < c.yminax ∨ ymin > c.yminax + (c.ymaxax - c.yminax) / 2) ∨
       (ymax > c.ymaxax ∨ ymax < c.yminax + (c.ymaxax - c.yminax) / 2)) →
      autoscale_cell xflag yflag c = some c) ∧
    (((xmin < c.xminax ∨ xmin > c.xminax + (c.xmaxax - c.xminax) / 2) ∨
      (xmax > c.xmaxax ∨ xmax < c.xminax + (c.xmaxax - c.xminax) / 2) ∨
      (ymin < c.yminax ∨ ymin > c.yminax + (c.ymaxax - c.yminax) / 2) ∨
      (ymax > c.ymaxax ∨ ymax < c.yminax + (c.ymaxax - c.yminax) / 2)) →
      autoscale_cell xflag yflag c =
        some { c with
          xminax := if xflag then xmin - (1/10) * (xmax - xmin) else c.xminax
          xmaxax := if xflag then xmax + (1/10) * (xmax - xmin) else c.xmaxax
          yminax := if yflag then ymin - (1/10) * (xmax - xmin) else c.yminax
          ymaxax := if yflag then ymax + (1/10) * (xmax - xmin) else c.ymaxax }) := by
  unfold autoscale_cell
  rw [hb]
  dsimp only
  constructor
  · intro h
    rw [if_neg h]
  · intro h
    rw [if_pos h]

/-- Claim C3 witness: on `cellC1` (bounds (0, 1, 0, 10), triggering)
the amended theorem yields the rescaled limits. -/
theorem C3_rescale_trigger_witness :
    autoscale_cell true true cellC1 =
      some { cellC1 with
        xminax := 0 - (1/10) * (1 - 0), xmaxax := 1 + (1/10) * (1 - 0),
        yminax := 0 - (1/10) * (1 - 0), ymaxax := 10 + (1/10) * (1 - 0) } := by
  have h := (C3_rescale_trigger true true cellC1 0 1 0 10
    (by norm_num [cellBounds, cellC1, optList, List.min?, List.max?, min_def, max_def])).2
    (by norm_num [cellC1])
  simpa using h

/-- Unfolding equation for `plotInner` on a nonempty y list. -/
theorem plotInner_cons (i : Nat) (x : List Int) (j : Nat) (y : List Int)
    (rest : List (List Int)) :
    plotInner i x j (y :: rest) =
      if x.length ≠ y.length then ([], .error lengthErr)
      else ((i, j) :: (plotInner i x (j + 1) rest).1, (plotInner i x (j + 1) rest).2) := by
  rcases hrec : plotInner i x (j + 1) rest with ⟨ls, res⟩
  simp only [plotInner, hrec]

/-- Unfolding equation for `plotOuter` on a nonempty x list. -/
theorem plotOuter_cons (i : Nat) (x : List Int) (rest ys : List (List Int)) :
    plotOuter i (x :: rest) ys =
      match (plotInner i x 0 ys).2 with
      | .ok _ => ((plotInner i x 0 ys).1 ++ (plotOuter (i + 1) rest ys).1,
                  (plotOuter (i + 1) rest ys).2)
      | .error e => ((plotInner i x 0 ys).1, .error e) := by
  rcases hres : plotInner i x 0 ys with ⟨ls, res⟩
  rcases hrec : plotOuter (i + 1) rest ys with ⟨ls2, res2⟩
  cases res <;> simp only [plotOuter, hres, hrec]

/-- The only exception the inner plotting loop raises is the length
mismatch. -/
theorem plotInner_err_msg (i : Nat) (x : List Int) (j : Nat)
    (ys : List (List Int)) (e : String)
    (h : (plotInner i x j ys).2 = .error e) : e = lengthErr := by
  induction ys generalizing j with
  | nil => simp [plotInner] at h
  | cons y rest ih =>
    rw [plotInner_cons] at h
    by_cases hx : x.length ≠ y.length
    · rw [if_pos hx] at h
      exact (Except.error.inj h).symm
    · rw [if_neg hx] at h
      exact ih (j + 1) h

/-- If the inner plotting loop finishes without raising, every y
series matches the x series' length. -/
theorem plotInner_ok (i : Nat) (x : List Int) (j : Nat)
    (ys : List (List Int)) (h : (plotInner i x j ys).2 = .ok ()) :
    ∀ y ∈ ys, x.length = y.length := by
  induction ys generalizing j with
  | nil => intro y hy; simp at hy
  | cons y rest ih =>
    rw [plotInner_cons] at h
    by_cases hx : x.length ≠ y.length
    · rw [if_pos hx] at h
      simp at h
    · rw [if_neg hx] at h
      push_neg at hx
      intro y' hy'
      rcases List.mem_cons.mp hy' with hy' | hy'
      · rwa [hy']
      · exact ih (j + 1) h y' hy'

/-- If some y series mismatches the x series' length, the inner loop
raises the length-mismatch error. -/
theorem plotInner_err (i : Nat) (x : List Int) (j : Nat)
    (ys : List (List Int)) (h : ∃ y ∈ ys, x.length ≠ y.length) :
    (plotInner i x j ys).2 = .error lengthErr := by
  induction ys generalizing j with
  | nil => rcases h with ⟨y, hy, _⟩; simp at hy
  | cons y rest ih =>
    rw [plotInner_cons]
    by_cases hx : x.length ≠ y.length
    · rw [if_pos hx]
    · rw [if_neg hx]
      rcases h with ⟨y', hy', hne⟩
      rcases List.mem_cons.mp hy' with hy' | hy'
      · exact absurd (hy' ▸ hne) hx
      · exact ih (j + 1) ⟨y', hy', hne⟩

/-- Every handle the inner loop creates sits at row index `i` and at a
column `j + k` whose y series exists and matches the x length. -/
theorem plotInner_mem (i : Nat) (x : List Int) (j : Nat)
    (ys : List (List Int)) (p q : Nat)
    (h : (p, q) ∈ (plotInner i x j ys).1) :
    p = i ∧ ∃ y k, ys.get? k = some y ∧ q = j + k ∧ x.length = y.length := by
  induction ys generalizing j with
  | nil => simp [plotInner] at h
  | cons y rest ih =>
    rw [plotInner_cons] at h
    by_cases hx : x.length ≠ y.length
    · rw [if_pos hx] at h
      simp at h
    · rw [if_neg hx] at h
      push_neg at hx
      rcases List.mem_cons.mp h with h | h
      · obtain ⟨hp, hq⟩ := Prod.mk.inj h
        exact ⟨hp, y, 0, rfl, by omega, hx⟩
      · obtain ⟨hp, y', k, hget, hq, hlen⟩ := ih (j + 1) h
        exact ⟨hp, y', k + 1, hget, by omega, hlen⟩

/-- If some x/y pair mismatches in length, the outer plotting loop
raises the length-mismatch error. -/
theorem plotOuter_err (i : Nat) (xs ys : List (List Int))
    (h : ∃ x ∈ xs, ∃ y ∈ ys, x.length ≠ y.length) :
    (plotOuter i xs ys).2 = .error lengthErr := by
  induction xs generalizing i with
  | nil => rcases h with ⟨x, hx, _⟩; simp at hx
  | cons x0 rest ih =>
    rw [plotOuter_cons]
    rcases hres : (plotInner i x0 0 ys).2 with e | u
    · have he : e = lengthErr := plotInner_err_msg i x0 0 ys e hres
      rw [he]
    · rcases h with ⟨x, hx, y, hy, hne⟩
      rcases List.mem_cons.mp hx with hx | hx
      · cases u
        have hlen := plotInner_ok i x0 0 ys hres y hy
        exact absurd (hx ▸ hne) (by simp [hlen])
      · exact ih (i + 1) ⟨x, hx, y, hy, hne⟩

/-- Every handle the outer loop creates corresponds to an existing
x/y pair of matching lengths. -/
theorem plotOuter_mem (i : Nat) (xs ys : List (List Int)) (p q : Nat)
    (h : (p, q) ∈ (plotOuter i xs ys).1) :
    ∃ k x, xs.get? k = some x ∧ p = i + k ∧
      ∃ y, ys.get? q = some y ∧ x.length = y.length := by
  induction xs generalizing i with
  | nil => simp [plotOuter] at h
  | cons x0 rest ih =>
    rw [plotOuter_cons] at h
    rcases hres : (plotInner i x0 0 ys).2 with e | u <;> rw [hres] at h
    · obtain ⟨hp, y, k, hget, hq, hlen⟩ := plotInner_mem i x0 0 ys p q h
      exact ⟨0, x0, rfl, by omega, y, by simpa [hq] using hget, hlen⟩
    · rcases List.mem_append.mp h with h | h
      · obtain ⟨hp, y, k, hget, hq, hlen⟩ := plotInner_mem i x0 0 ys p q h
        exact ⟨0, x0, rfl, by omega, y, by simpa [hq] using hget, hlen⟩
      · obtain ⟨k, x, hget, hp, hy⟩ := ih (i + 1) h
        exact ⟨k + 1, x, hget, by omega, hy⟩

/-- Claim C4 (counterexample): a plot call pairing series of lengths 3
and 5 does raise the length-mismatch error and creates no line handle,
but it does NOT leave the state untouched: starting from a fresh state
(mode 'none', no axes), after the failing call the mode is 'plot' and a
1x1 axes grid has been built, both observable by later draw or update
calls, because `plot` creates the axes and sets the mode before the
per-pair length check runs. -/
theorem C4_counterexample :
    plot { mode := "none", axesShape := none, lines := [] }
        (some [[1, 2, 3]]) [[1, 2, 3, 4, 5]] true true =
      ({ mode := "plot", axesShape := some (1, 1), lines := [] },
        .error lengthErr) ∧
    ("plot" : String) ≠ "none" ∧
    (some ((1 : Nat), (1 : Nat)) : Option (Nat × Nat)) ≠ none := by
  refine ⟨rfl, by decide, by decide⟩

/-- Claim C4 (amended): a plot call with a mismatched x/y pair raises
the length-mismatch error and creates no line handle for that pair
(handles created for pairs processed earlier remain), but it leaves
partially-built state behind: the final state has mode 'plot' and the
freshly built axes grid of the usual shape. -/
theorem C4_plot_partial_state (s : OscState) (xs ys : List (List Int))
    (splitx splity : Bool) (a b : Nat) (x y : List Int)
    (hx : xs.get? a = some x) (hy : ys.get? b = some y)
    (hlen : x.length ≠ y.length) :
    (plot s (some xs) ys splitx splity).2 = .error lengthErr ∧
    (a, b) ∉ (plot s (some xs) ys splitx splity).1.lines ∧
    (plot s (some xs) ys splitx splity).1.mode = "plot" ∧
    (plot s (some xs) ys splitx splity).1.axesShape =
      some ((if splity then ys.length else 1),
            (if splitx then xs.length else 1)) := by
  have hplot : plot s (some xs) ys splitx splity =
      ({ mode := "plot"
         axesShape := some ((if splity then ys.length else 1),
                            (if splitx then xs.length else 1))
         lines := (plotOuter 0 xs ys).1 }, (plotOuter 0 xs ys).2) := by
    rcases hres : plotOuter 0 xs ys with ⟨ls, res⟩
    simp only [plot, hres]
  rw [hplot]
  refine ⟨?_, ?_, rfl, rfl⟩
  · exact plotOuter_err 0 xs ys
      ⟨x, List.get?_mem hx, y, List.get?_mem hy, hlen⟩
  · intro hmem
    obtain ⟨k, x', hget, hp, y', hgety, hlen'⟩ := plotOuter_mem 0 xs ys a b hmem
    have hk : k = a := by omega
    rw [hk, hx] at hget
    rw [hy] at hgety
    exact hlen (Option.some.inj hget ▸ Option.some.inj hgety ▸ hlen')

/-- Claim C4 witness: the concrete mismatched call (lengths 3 and 5)
errors, creates no handle at position (0, 0), and leaves mode 'plot'
and a built 1x1 axes grid behind. -/
theorem C4_plot_partial_state_witness :
    (plot { mode := "none", axesShape := none, lines := [] }
        (some [[1, 2, 3]]) [[1, 2, 3, 4, 5]] true true).2 = .error lengthErr ∧
    (0, 0) ∉ (plot { mode := "none", axesShape := none, lines := [] }
        (some [[1, 2, 3]]) [[1, 2, 3, 4, 5]] true true).1.lines ∧
    (plot { mode := "none", axesShape := none, lines := [] }
        (some [[1, 2, 3]]) [[1, 2, 3, 4, 5]] true true).1.mode = "plot" ∧
    (plot { mode := "none", axesShape := none, lines := [] }
        (some [[1, 2, 3]]) [[1, 2, 3, 4, 5]] true true).1.axesShape =
      some ((if true then 1 else 1), (if true then 1 else 1)) :=
  C4_plot_partial_state { mode := "none", axesShape := none, lines := [] }
    [[1, 2, 3]] [[1, 2, 3, 4, 5]] true true 0 0 [1, 2, 3] [1, 2, 3, 4, 5]
    rfl rfl (by decide)

/-- Claim C5: for every plot call the resulting axes grid has
rows = number of y identifiers if splity else 1, and columns = number
of x identifiers if splitx and not oneD else 1 (`gridShapeSpec`),
e.g. two x identifiers and one y identifier with both split flags true
give shape (1, 2). -/
theorem C5_grid_shape (s : OscState) (xs : Option (List (List Int)))
    (ys : List (List Int)) (splitx splity : Bool) :
    (plot s xs ys splitx splity).1.axesShape =
      some (gridShapeSpec ((xs.getD []).length) ys.length splitx splity
        xs.isNone) := by
  cases xs with
  | none => simp [plot, gridShapeSpec]
  | some l =>
    rcases hres : plotOuter 0 l ys with ⟨ls, res⟩
    simp [plot, gridShapeSpec, hres]

/-- Claim C7: any exception raised inside one tick of the background
sampling loop is fatal: the loop runs exactly the ticks before it plus
the failing one, re-raises the exception (the result is that error, not
swallowed), sets the stop flag, and runs no further tick; the loop's
normal-exit close is skipped. -/
theorem C7_fatal_tick (pre post : List (Except String Unit)) (e : String)
    (hpre : ∀ t ∈ pre, t = .ok ()) :
    runThread (pre ++ .error e :: post) =
      { ticksRun := pre.length + 1, result := .error e,
        stopped := true, closed := false } := by
  induction pre with
  | nil => rfl
  | cons t rest ih =>
    have ht : t = .ok () := hpre t (List.mem_cons_self t rest)
    subst ht
    have hr := ih (fun t' ht' => hpre t' (List.mem_cons_of_mem _ ht'))
    show ({ runThread (rest ++ .error e :: post) with
      ticksRun := (runThread (rest ++ .error e :: post)).ticksRun + 1 } : RunOutcome) = _
    rw [hr]
    simp

/-- Claim C7 witness: two good ticks, then a failing one, then one more
scheduled: the loop runs 3 ticks, re-raises the error, and never runs
the fourth. -/
theorem C7_fatal_tick_witness :
    runThread [.ok (), .ok (), .error "boom", .ok ()] =
      { ticksRun := 3, result := .error "boom",
        stopped := true, closed := false } := by
  have h := C7_fatal_tick [.ok (), .ok ()] [.ok ()] "boom" (by
    intro t ht
    rcases List.mem_cons.mp ht with h1 | h1
    · exact h1
    · rcases List.mem_cons.mp h1 with h2 | h2
      · exact h2
      · simp at h2)
  simpa using h

/-- Claim C8: for a rendering backend outside the supported set (the
keys of `update_backend`: 'macosx' and 'wxagg'), a tick in mode 'plot'
fails with the KeyError-class lookup error instead of falling back to a
default strategy, while a tick in mode 'none' succeeds. -/
theorem C8_unknown_backend (backend : String)
    (h : update_backend.lookup backend = none) :
    update_tick "plot" backend = .error ("KeyError: " ++ backend) ∧
    update_tick "none" backend = .ok () := by
  constructor
  · show (update_plot_strategy backend).map (fun _ => ()) = _
    rw [update_plot_strategy, h]
    rfl
  · rfl

/-- Claim C8 witness: the 'tkagg' backend is not in the supported set;
a 'plot'-mode tick fails with its KeyError and a 'none'-mode tick does
not. -/
theorem C8_unknown_backend_witness :
    update_tick "plot" "tkagg" = .error ("KeyError: " ++ "tkagg") ∧
    update_tick "none" "tkagg" = .ok () :=
  C8_unknown_backend "tkagg" (by rfl)

/-- Claim C9: `stop` is idempotent — a second call on the already
stopped engine reproduces the same state, in particular performing no
second blocking join — and after any `stop` the figure is released and
the reader closed. -/
theorem C9_stop_idempotent (s : EngineState) :
    stop (stop s) = stop s ∧
    (stop s).figOpen = false ∧
    (stop s).readerOpen = false ∧
    (stop (stop s)).joinCount = (stop s).joinCount := by
  rcases s with ⟨i, a, st, f, r, j⟩
  cases i <;> cases a <;> simp [stop, close]

/-- Claim C10: an identifier that is neither a string, nor an int, nor
an iterable resolves to nothing: as the first identifier of its list
the loop fails with the unbound-local error, and after a successfully
resolved identifier the loop silently appends the previously resolved
series and its name a second time instead of raising. -/
theorem C10_unresolvable_identifier (df : List (String × List Int))
    (rest : List Ident) (d : List Int) :
    resolve_series df (.other :: rest) 0 none =
      .error "UnboundLocalError: local variable referenced before assignment" ∧
    resolve_series df [.series d, .other] 0 none =
      .ok [(d, yDefaultName 0), (d, yDefaultName 0)] := by
  exact ⟨rfl, rfl⟩

end PyOscope
